import Mathlib

/-!
Shallow embedding of the core of the `httpvoyager` repository
(a terminal client for GraphQL / HTTP / WebSocket endpoints) and proofs
about it.

Conventions used throughout:

* Python's `json.loads` (standard library, external to the repository) is
  modelled as an explicit function parameter
  `loads : String → Except String Json`; `.error msg` models a raised
  `json.JSONDecodeError` whose `str()` is `msg`.
* A Python function that can raise an uncaught exception is embedded as a
  function into `Except String α`; `.error` carries the exception kind.
* Machine floats (request latencies) are modelled as rationals.
-/

namespace Voyager

/-- Model of a parsed JSON document / Python value as produced by
`json.loads`: `null`/`None`, booleans, numbers (restricted to integers —
no claim involves fractional literals), strings, arrays (Python lists)
and objects (Python dicts, as association lists in insertion order,
keys unique). -/
inductive Json where
  | null : Json
  | bool (b : Bool) : Json
  | num (n : Int) : Json
  | str (s : String) : Json
  | arr (elems : List Json) : Json
  | obj (members : List (String × Json)) : Json
deriving Repr

/-- Association-list lookup, modelling Python `dict` access
(first match; dicts parsed from JSON have unique keys). -/
def jlookup : List (String × Json) → String → Option Json
  | [], _ => none
  | (k, v) :: rest, key => if k = key then some v else jlookup rest key

theorem jlookup_sizeOf_lt {kvs : List (String × Json)} {key : String} {v : Json}
    (h : jlookup kvs key = some v) : sizeOf v < sizeOf kvs := by
  induction kvs with
  | nil => simp [jlookup] at h
  | cons p rest ih =>
    obtain ⟨a, b⟩ := p
    rw [jlookup] at h
    by_cases hk : a = key
    · rw [if_pos hk] at h
      cases h
      simp
      omega
    · rw [if_neg hk] at h
      have := ih h
      simp
      omega

theorem jlookup_nonnil {kvs : List (String × Json)} {key : String} {v : Json}
    (h : jlookup kvs key = some v) : kvs ≠ [] := by
  intro hnil
  subst hnil
  simp [jlookup] at h

/-- Python truthiness (`bool(x)`) of a parsed-JSON value: `None`, `False`,
`0`, `""`, `[]` and `{}` are falsy, everything else truthy. -/
def Json.truthy : Json → Bool
  | .null => false
  | .bool b => b
  | .num n => n != 0
  | .str s => s != ""
  | .arr elems => !elems.isEmpty
  | .obj members => !members.isEmpty

/-- Model of Python `x.get(key)` on a parsed-JSON value: returns the member
(`None` when absent) when `x` is a dict, raises `AttributeError`
otherwise. -/
def pyGet (x : Json) (key : String) : Except String Json :=
  match x with
  | .obj members => .ok ((jlookup members key).getD .null)
  | _ => .error "AttributeError"

/-- Model of Python `x.get(key, default)`: the default is used only when
the key is absent (a member explicitly set to `null` is returned as is). -/
def pyGetD (x : Json) (key : String) (dflt : Json) : Except String Json :=
  match x with
  | .obj members => .ok ((jlookup members key).getD dflt)
  | _ => .error "AttributeError"

/-- Model of Python `str.strip()` (no arguments): removes leading and
trailing whitespace. Implemented over the character list so it is
kernel-computable. -/
def pyStrip (s : String) : String :=
  String.mk (((s.toList.dropWhile Char.isWhitespace).reverse.dropWhile
      Char.isWhitespace).reverse)

/-- Model of Python `str.upper()` (over the ASCII range the code uses). -/
def pyUpper (s : String) : String :=
  String.mk (s.toList.map Char.toUpper)

/-- Single quote character (spelled via its code point). -/
def squote : Char := Char.ofNat 39

/-- Lowercase hexadecimal digit character for a value below 16
(computed from the code points of `0` and `a`). -/
def hexDigit (n : Nat) : Char :=
  if n < 10 then Char.ofNat (48 + n) else Char.ofNat (87 + n)

/-- Two-digit lowercase hex rendering of a byte value. -/
def hex2 (n : Nat) : String :=
  String.mk [hexDigit ((n / 16) % 16), hexDigit (n % 16)]

/-- Four-digit lowercase hex rendering of a 16-bit value. -/
def hex4 (n : Nat) : String :=
  String.mk [hexDigit ((n / 4096) % 16), hexDigit ((n / 256) % 16),
             hexDigit ((n / 16) % 16), hexDigit (n % 16)]

/-- Escape of one character inside a Python string repr that uses quote
character `q`: backslash and the quote are escaped, common control
characters use their short escapes, other control characters use a hex
escape; all remaining characters stand for themselves. -/
def pyEscapeChar (q : Char) (c : Char) : String :=
  if c = '\\' then "\\\\"
  else if c = q then "\\" ++ String.mk [q]
  else if c = '\n' then "\\n"
  else if c = '\r' then "\\r"
  else if c = '\t' then "\\t"
  else if c.toNat < 32 then "\\x" ++ hex2 c.toNat
  else String.mk [c]

/-- Model of Python `repr` of a string: single quotes by default, double
quotes when the text contains a single quote but no double quote. -/
def pyQuote (s : String) : String :=
  let q : Char := if s.contains squote ∧ ¬ s.contains '"' then '"' else squote
  String.mk [q] ++ String.join (s.toList.map (pyEscapeChar q)) ++ String.mk [q]

mutual

/-- Model of Python `repr` on a parsed-JSON value (used for elements of
containers under `str`). -/
def pyRepr : Json → String
  | .null => "None"
  | .bool true => "True"
  | .bool false => "False"
  | .num n => toString n
  | .str s => pyQuote s
  | .arr elems => "[" ++ String.intercalate ", " (pyReprList elems) ++ "]"
  | .obj members => "\x7b" ++ String.intercalate ", " (pyReprObj members) ++ "\x7d"

/-- Reprs of the elements of a Python list. -/
def pyReprList : List Json → List String
  | [] => []
  | x :: rest => pyRepr x :: pyReprList rest

/-- Reprs of the `key: value` items of a Python dict. -/
def pyReprObj : List (String × Json) → List String
  | [] => []
  | (k, v) :: rest => (pyQuote k ++ ": " ++ pyRepr v) :: pyReprObj rest

end

/-- Model of Python `str` on a parsed-JSON value: strings are returned
unchanged, scalars use their Python text form, containers fall back to
`repr`. -/
def pyStr : Json → String
  | .str s => s
  | .null => "None"
  | .bool true => "True"
  | .bool false => "False"
  | .num n => toString n
  | .arr elems => pyRepr (.arr elems)
  | .obj members => pyRepr (.obj members)

/-- Escape of one character under `json.dumps` (`ensure_ascii=True`):
quote, backslash and common control characters use short escapes, other
control characters and all non-ASCII characters use `\uXXXX` escapes
(astral characters as a surrogate pair). -/
def jsonEscapeChar (c : Char) : String :=
  if c = '"' then "\\\""
  else if c = '\\' then "\\\\"
  else if c = '\n' then "\\n"
  else if c = '\r' then "\\r"
  else if c = '\t' then "\\t"
  else if c.toNat = 8 then "\\b"
  else if c.toNat = 12 then "\\f"
  else if c.toNat < 32 then "\\u" ++ hex4 c.toNat
  else if c.toNat < 127 then String.mk [c]
  else if c.toNat < 65536 then "\\u" ++ hex4 c.toNat
  else
    let v := c.toNat - 65536
    "\\u" ++ hex4 (55296 + v / 1024) ++ "\\u" ++ hex4 (56320 + v % 1024)

/-- Escaped JSON rendering of a string body (without the quotes). -/
def jsonEscape (s : String) : String :=
  String.join (s.toList.map jsonEscapeChar)

/-- Indentation of `n` spaces. -/
def spaces (n : Nat) : String :=
  String.mk (List.replicate n ' ')

mutual

/-- Model of Python `json.dumps(v, indent=2)` at indentation level `ind`
(the level of the line the closing bracket goes on). -/
def jdump (ind : Nat) : Json → String
  | .null => "null"
  | .bool true => "true"
  | .bool false => "false"
  | .num n => toString n
  | .str s => "\"" ++ jsonEscape s ++ "\""
  | .arr [] => "[]"
  | .arr (x :: rest) =>
      "[\n" ++ String.intercalate ",\n" (jdumpList (ind + 2) (x :: rest))
        ++ "\n" ++ spaces ind ++ "]"
  | .obj [] => "\x7b\x7d"
  | .obj (m :: rest) =>
      "\x7b\n" ++ String.intercalate ",\n" (jdumpObj (ind + 2) (m :: rest))
        ++ "\n" ++ spaces ind ++ "\x7d"

/-- Dumped lines for the elements of an array. -/
def jdumpList (ind : Nat) : List Json → List String
  | [] => []
  | x :: rest => (spaces ind ++ jdump ind x) :: jdumpList ind rest

/-- Dumped lines for the members of an object. -/
def jdumpObj (ind : Nat) : List (String × Json) → List String
  | [] => []
  | (k, v) :: rest =>
      (spaces ind ++ "\"" ++ jsonEscape k ++ "\": " ++ jdump ind v) :: jdumpObj ind rest

end

/-- Dict-semantics insert for a string-valued mapping: an existing key
keeps its position and gets the new value (last write wins), a new key is
appended. Models `headers[key] = value` on a Python dict. -/
def setKV (m : List (String × String)) (k v : String) : List (String × String) :=
  if m.any (fun p => p.1 = k) then
    m.map (fun p => if p.1 = k then (k, v) else p)
  else m ++ [(k, v)]

/-- Loop of `parse_header_lines` from `src/voyager/parsing.py`: blank
lines are skipped, a line without a colon raises
`ValueError("Invalid header line: <line!r>")`, otherwise the line is
split on the first colon and key/value are trimmed. -/
def parse_header_lines_go : List String → List (String × String) →
    Except String (List (String × String))
  | [], acc => .ok acc
  | line :: rest, acc =>
    if pyStrip line = "" then parse_header_lines_go rest acc
    else
      match line.splitOn ":" with
      | k :: v1 :: vs =>
          parse_header_lines_go rest
            (setKV acc (pyStrip k) (pyStrip (String.intercalate ":" (v1 :: vs))))
      | _ => .error ("Invalid header line: " ++ pyQuote line)

/-- Model of `parse_header_lines` from `src/voyager/parsing.py`
(`raw.splitlines()` modelled as splitting on newline). -/
def parse_header_lines (raw : String) : Except String (List (String × String)) :=
  parse_header_lines_go (raw.splitOn "\n") []

/-- Model of `parse_headers` from `src/voyager/parsing.py`. The input is
trimmed; an empty input yields an empty mapping; a JSON-object input
yields the members with every value passed through `str` (`pyStr`); JSON
input that is not an object raises `ValueError("Headers JSON must be an
object.")` (only `json.JSONDecodeError` is caught); non-JSON input falls
back to line-oriented parsing. `loads` models `json.loads`. -/
def parse_headers (loads : String → Except String Json) (raw : String) :
    Except String (List (String × String)) :=
  if pyStrip raw = "" then .ok []
  else
    match loads (pyStrip raw) with
    | .ok (.obj members) => .ok (members.map (fun p => (p.1, pyStr p.2)))
    | .ok _ => .error "Headers JSON must be an object."
    | .error _ => parse_header_lines (pyStrip raw)

/-- Model of `FieldInfo` from `src/voyager/introspection.py`. The
dataclass annotations say `str`, but the code can store arbitrary parsed
values (no runtime check), so value-typed fields are `Json`. -/
structure FieldInfo where
  name : Json
  type_repr : Json
  description : Json
  args_str : String
deriving Repr

/-- Model of `TypeInfo` from `src/voyager/introspection.py`. `name` and
`kind` are genuine strings (the code checks `name.startswith` and
compares `kind` against string constants before storing). -/
structure TypeInfo where
  name : String
  kind : String
  description : Json
  fields : List FieldInfo
deriving Repr

/-- Model of `IntrospectionResult` from `src/voyager/introspection.py`. -/
structure IntrospectionResult where
  success : Bool
  status : String
  details : String
  types : List TypeInfo
deriving Repr

/-- Model of `GraphQLResponse` from `src/voyager/models.py`; the float
`duration_ms` is modelled as a rational. -/
structure GraphQLResponse where
  status : Int
  text : String
  duration_ms : Rat
deriving Repr, DecidableEq

/-- Model of `_type_repr` from `src/voyager/introspection.py`. A falsy
node yields `"Unknown"`; a dict node with a truthy `ofType` recursively
resolves the inner representation and wraps it according to `kind`
(`f"{inner}!"` / `f"[{inner}]"` apply Python `str` to the inner value);
otherwise the node's own `name` or `kind` value is returned raw
(`name or kind or "Unknown"`). A truthy non-dict node raises
`AttributeError` at `node.get`. -/
def _type_repr (node : Json) : Except String Json :=
  if node.truthy = false then .ok (.str "Unknown")
  else
    match node with
    | .obj kvs =>
        let name := (jlookup kvs "name").getD .null
        let kind := (jlookup kvs "kind").getD .null
        match h : jlookup kvs "ofType" with
        | some oft =>
            if oft.truthy then
              match _type_repr oft with
              | .error e => .error e
              | .ok inner =>
                  match kind with
                  | .str "NON_NULL" => .ok (.str (pyStr inner ++ "!"))
                  | .str "LIST" => .ok (.str ("[" ++ pyStr inner ++ "]"))
                  | _ => .ok inner
            else
              .ok (if name.truthy then name else if kind.truthy then kind else .str "Unknown")
        | none =>
            .ok (if name.truthy then name else if kind.truthy then kind else .str "Unknown")
    | _ => .error "AttributeError"
termination_by sizeOf node
decreasing_by
  have := jlookup_sizeOf_lt h
  simp only [Json.obj.sizeOf_spec]
  omega

/-- Model of Python iteration `for x in v`: lists yield their elements,
dicts their keys, strings their characters; other truthy values raise
`TypeError`. (In the source this only runs on values already checked to
be truthy.) -/
def iterElems : Json → Except String (List Json)
  | .arr elems => .ok elems
  | .obj members => .ok (members.map (fun p => Json.str p.1))
  | .str s => .ok (s.toList.map (fun c => Json.str c.toString))
  | _ => .error "TypeError"

/-- Model of the argument-signature generator inside `_collect_fields`
(`", ".join(_format_arg(arg) for arg in args_raw if arg.get("name"))`):
args with a falsy `name` are skipped, `_format_arg` renders
`f"{arg.get('name')}: {_type_repr(arg.get('type'))}"`. -/
def _collect_args : List Json → Except String (List String)
  | [] => .ok []
  | a :: rest =>
    match pyGet a "name" with
    | .error e => .error e
    | .ok nameVal =>
      if nameVal.truthy then
        match pyGet a "type" with
        | .error e => .error e
        | .ok tVal =>
          match _type_repr tVal with
          | .error e => .error e
          | .ok trep =>
            match _collect_args rest with
            | .error e => .error e
            | .ok tail => .ok ((pyStr nameVal ++ ": " ++ pyStr trep) :: tail)
      else _collect_args rest

/-- Model of `_collect_fields` from `src/voyager/introspection.py`:
fields with a falsy `name` are skipped; `description` and `args` fall
back to `""` / `[]` when falsy (`x or default`). -/
def _collect_fields : List Json → Except String (List FieldInfo)
  | [] => .ok []
  | f :: rest =>
    match pyGet f "name" with
    | .error e => .error e
    | .ok nameVal =>
      if nameVal.truthy then
        match pyGet f "type" with
        | .error e => .error e
        | .ok tVal =>
          match _type_repr tVal with
          | .error e => .error e
          | .ok trep =>
            match pyGet f "description" with
            | .error e => .error e
            | .ok descVal =>
              let desc := if descVal.truthy then descVal else Json.str ""
              match pyGet f "args" with
              | .error e => .error e
              | .ok argsVal =>
                let args := if argsVal.truthy then argsVal else Json.arr []
                match iterElems args with
                | .error e => .error e
                | .ok argElems =>
                  match _collect_args argElems with
                  | .error e => .error e
                  | .ok argStrs =>
                    match _collect_fields rest with
                    | .error e => .error e
                    | .ok tail =>
                        .ok (⟨nameVal, trep, desc, String.intercalate ", " argStrs⟩ :: tail)
      else _collect_fields rest

/-- Model of `_collect_types` from `src/voyager/introspection.py`: a type
with a falsy `name` is skipped (before `startswith` runs), a truthy
non-string `name` raises `AttributeError` at `name.startswith`, names
starting with `__` and kinds outside OBJECT/INTERFACE/INPUT_OBJECT are
skipped; `fields` and `description` fall back to `[]` / `""` when
falsy. -/
def _collect_types : List Json → Except String (List TypeInfo)
  | [] => .ok []
  | t :: rest =>
    match pyGet t "name" with
    | .error e => .error e
    | .ok nameVal =>
      match pyGet t "kind" with
      | .error e => .error e
      | .ok kindVal =>
        if nameVal.truthy then
          match nameVal with
          | .str n =>
            if n.startsWith "__" then _collect_types rest
            else
              match kindVal with
              | .str k =>
                if k = "OBJECT" ∨ k = "INTERFACE" ∨ k = "INPUT_OBJECT" then
                  match pyGet t "fields" with
                  | .error e => .error e
                  | .ok fieldsVal =>
                    let fr := if fieldsVal.truthy then fieldsVal else Json.arr []
                    match iterElems fr with
                    | .error e => .error e
                    | .ok fieldElems =>
                      match _collect_fields fieldElems with
                      | .error e => .error e
                      | .ok fields =>
                        match pyGet t "description" with
                        | .error e => .error e
                        | .ok descVal =>
                          let desc := if descVal.truthy then descVal else Json.str ""
                          match _collect_types rest with
                          | .error e => .error e
                          | .ok tail => .ok (⟨n, k, desc, fields⟩ :: tail)
                else _collect_types rest
              | _ => _collect_types rest
          | _ => .error "AttributeError"
        else _collect_types rest

/-- Model of `build_introspection_result` from
`src/voyager/introspection.py`. `loads` models `json.loads`; a returned
`.error` models an uncaught exception escaping the function. -/
def build_introspection_result (loads : String → Except String Json)
    (response : GraphQLResponse) : Except String IntrospectionResult :=
  match loads response.text with
  | .error exc => .ok ⟨false, "Could not parse JSON: " ++ exc, response.text, []⟩
  | .ok data =>
    if response.status ≠ 200 then
      .ok ⟨false, "HTTP " ++ toString response.status, response.text, []⟩
    else
      match pyGet data "errors" with
      | .error e => .error e
      | .ok errors =>
        if errors.truthy then .ok ⟨false, "GraphQL errors", jdump 0 errors, []⟩
        else
          match pyGetD data "data" (Json.obj []) with
          | .error e => .error e
          | .ok dataField =>
            match pyGetD dataField "__schema" (Json.obj []) with
            | .error e => .error e
            | .ok schema =>
              match pyGet schema "types" with
              | .error e => .error e
              | .ok types_raw =>
                if types_raw.truthy = false then
                  .ok ⟨false, "No types returned from schema.", response.text, []⟩
                else
                  match iterElems types_raw with
                  | .error e => .error e
                  | .ok elems =>
                    match _collect_types elems with
                    | .error e => .error e
                    | .ok types =>
                      if types.isEmpty then
                        .ok ⟨false, "Schema loaded but no object/interface/input types.",
                             response.text, []⟩
                      else
                        let summary := "Schema loaded: " ++ toString types.length ++ " types."
                        .ok ⟨true, summary,
                             summary ++ "\n\n" ++
                               String.intercalate "\n" ((types.map (fun t => t.name)).take 50),
                             types⟩

/-- Result of Python's `urllib.parse.urlparse` on the endpoint string,
modelled abstractly by its two components the code reads (`urlparse` is
standard-library code external to the repository). -/
structure ParsedUrl where
  scheme : String
  netloc : String
deriving Repr, DecidableEq

/-- Model of `_validate_url` from `src/voyager/http_client.py`: raises
`ValueError(f"Unsupported URL scheme: {parsed.scheme or 'missing'}")`
unless the scheme is http/https. -/
def _validate_url (u : ParsedUrl) : Except String Unit :=
  if u.scheme = "http" ∨ u.scheme = "https" then .ok ()
  else .error ("Unsupported URL scheme: " ++ (if u.scheme = "" then "missing" else u.scheme))

/-- Transport tier actually dispatched to by the request executor. -/
inductive Tier where
  | requester
  | httpx
  | urllib
deriving Repr, DecidableEq

/-- Model of `perform_request` from `src/voyager/http_client.py`.
External pieces are parameters: `t0`/`t1` model the event-loop clock
readings around the dispatch, `requester` the optional override transport
(its outcome, `.error` = raised transport exception), `httpxAvail`
whether `httpx` imported, and `httpxResult`/`urllibResult` the outcomes
of those tiers. Returns the result (envelope or escaped exception) and
which transport tier was invoked (`none` = none was). -/
def perform_request (url : ParsedUrl) (t0 t1 : Rat)
    (requester : Option (Except String (Int × String)))
    (httpxAvail : Bool) (httpxResult urllibResult : Except String (Int × String)) :
    Except String GraphQLResponse × Option Tier :=
  match _validate_url url with
  | .error e => (.error e, none)
  | .ok _ =>
    let dispatch : Except String (Int × String) × Tier :=
      match requester with
      | some r => (r, .requester)
      | none => if httpxAvail then (httpxResult, .httpx) else (urllibResult, .urllib)
    match dispatch.1 with
    | .error e => (.error e, some dispatch.2)
    | .ok (st, tx) => (.ok ⟨st, tx, (t1 - t0) * 1000⟩, some dispatch.2)

/-- Model of the method normalization in `perform_http_request`
(`method.strip().upper() or "GET"`). -/
def normalize_method (m : String) : String :=
  let n := pyUpper (pyStrip m)
  if n = "" then "GET" else n

/-- Model of `perform_http_request` from `src/voyager/http_client.py`.
The transport tiers are modelled as functions of the normalized method
they are handed; everything else as in `perform_request`. -/
def perform_http_request (url : ParsedUrl) (method : String) (t0 t1 : Rat)
    (requester : Option (String → Except String (Int × String)))
    (httpxAvail : Bool)
    (httpxResult urllibResult : String → Except String (Int × String)) :
    Except String GraphQLResponse × Option Tier :=
  let m := normalize_method method
  match _validate_url url with
  | .error e => (.error e, none)
  | .ok _ =>
    let dispatch : Except String (Int × String) × Tier :=
      match requester with
      | some r => (r m, .requester)
      | none => if httpxAvail then (httpxResult m, .httpx) else (urllibResult m, .urllib)
    match dispatch.1 with
    | .error e => (.error e, some dispatch.2)
    | .ok (st, tx) => (.ok ⟨st, tx, (t1 - t0) * 1000⟩, some dispatch.2)

/-- Model of `_validate_ws_url` from `src/voyager/ws_tab.py`: scheme must
be ws/wss (checked first), then the host component must be non-empty. -/
def _validate_ws_url (u : ParsedUrl) : Except String Unit :=
  if u.scheme = "ws" ∨ u.scheme = "wss" then
    if u.netloc = "" then .error "Missing host in URL." else .ok ()
  else .error ("Unsupported URL scheme: " ++ (if u.scheme = "" then "missing" else u.scheme))

/-- Observable state of a `WebSocketTab` session
(`src/voyager/ws_tab.py`): the two reactive flags, the connection handle
and receive-loop task (as optional ids), the status line, and the log
pane (as a list of appended lines). -/
structure WsSession where
  busy : Bool
  connected : Bool
  connection : Option Nat
  recv_task : Option Nat
  status : String
  log : List String
deriving Repr, DecidableEq

/-- Model of `_set_status`. -/
def _set_status (s : WsSession) (m : String) : WsSession :=
  { s with status := m }

/-- Model of `_append_log`. -/
def _append_log (s : WsSession) (m : String) : WsSession :=
  { s with log := s.log ++ [m] }

/-- Model of assigning the reactive `busy` flag: the `watch_busy` watcher
runs only when the value changes and sets the status line to
`"Working..."` / `""` (widgets assumed present, as in the running
app). -/
def set_busy (s : WsSession) (b : Bool) : WsSession :=
  if s.busy = b then s
  else { s with busy := b, status := if b then "Working..." else "" }

/-- Model of assigning the reactive `connected` flag: the
`watch_connected` watcher runs only when the value changes and sets the
status line to `"Connected."` / `"Disconnected."` (widgets assumed
present, as in the running app). -/
def set_connected (s : WsSession) (b : Bool) : WsSession :=
  if s.connected = b then s
  else { s with connected := b, status := if b then "Connected." else "Disconnected." }

/-- Model of `WebSocketTab.disconnect`. Cancelling and awaiting a live
receive-loop task runs the loop's `finally`, which clears `connected`
and `connection` (so in that path the subsequent `if self.connection:`
close never runs); otherwise a present connection handle is closed
(`closeOk` = whether `close()` returned without raising; on success
`"Disconnected."` is appended to the log) and cleared. Returns the new
state and whether `connection.close()` was invoked. -/
def disconnect (s : WsSession) (closeOk : Bool) : WsSession × Bool :=
  let s1 := set_connected s false
  match s1.recv_task with
  | some _ =>
      ({ s1 with recv_task := none, connection := none }, false)
  | none =>
      match s1.connection with
      | some _ =>
          let s2 := if closeOk then _append_log s1 "Disconnected." else s1
          ({ s2 with connection := none }, true)
      | none => (s1, false)

/-- Inputs of one `WebSocketTab.connect` attempt, with the external
collaborators as explicit data: `endpoint` is the raw endpoint input
value, `url` its `urlparse` result, `raw_headers` the headers pane text,
`transport` the websocket connect callable (`none` = the `websockets`
package is unavailable; `some (.ok h)` = connecting yields handle `h`;
`some (.error e)` = connecting raises `e`), and `closeOk` the outcome of
closing any pre-existing handle during the implicit `disconnect()`. -/
structure ConnectEnv where
  endpoint : String
  url : ParsedUrl
  raw_headers : String
  transport : Option (Except String Nat)
  closeOk : Bool

/-- Model of `WebSocketTab.connect` from `src/voyager/ws_tab.py`.
Returns the new session state and whether the transport connect callable
was invoked. State persistence (`_persist_state`) is external and not
part of the observable state. -/
def connect (loads : String → Except String Json) (s : WsSession) (env : ConnectEnv) :
    WsSession × Bool :=
  if s.busy then (s, false)
  else
    if pyStrip env.endpoint = "" then (_set_status s "Please provide an endpoint.", false)
    else
      match _validate_ws_url env.url with
      | .error msg => (_set_status s msg, false)
      | .ok _ =>
        match parse_headers loads env.raw_headers with
        | .error msg => (_set_status s msg, false)
        | .ok _ =>
          match env.transport with
          | none =>
              (_set_status s "Install the \u0027websockets\u0027 package to use this tab.", false)
          | some outcome =>
            let s1 := set_busy s true
            let s2 := (disconnect s1 env.closeOk).1
            let s3 := _set_status s2 ("Connecting to " ++ pyStrip env.endpoint ++ " ...")
            match outcome with
            | .error exc =>
                let s4 := _append_log s3 ("Connect failed: " ++ exc)
                let s5 := _set_status s4 ("Connect failed: " ++ exc)
                (set_busy s5 false, true)
            | .ok handle =>
                let s4 := { s3 with connection := some handle }
                let s5 := set_connected s4 true
                let s6 := set_busy s5 false
                let s7 := _append_log s6 ("Connected to " ++ pyStrip env.endpoint)
                ({ s7 with recv_task := some handle }, true)

/-- Session is Open: connected with a live connection handle. -/
def WsSession.isOpen (s : WsSession) : Prop :=
  s.connected = true ∧ s.connection.isSome = true

/-- Model of `WebSocketTab.send` from `src/voyager/ws_tab.py`. When not
open it first attempts the implicit `connect()` (same inputs as a
manual connect); if still not open it returns without touching the
transport. Otherwise the message is handed to `connection.send`
(`sendResult`: `.error` = the transport raised). Returns the new state
and the message forwarded to the transport (`none` = the transport send
was never invoked). -/
def send (loads : String → Except String Json) (s : WsSession) (env : ConnectEnv)
    (message : String) (sendResult : Except String Unit) : WsSession × Option String :=
  if s.busy then (s, none)
  else
    let s1 := if s.connection.isNone || !s.connected then (connect loads s env).1 else s
    if s1.connection.isNone || !s1.connected then (s1, none)
    else
      match sendResult with
      | .error exc =>
          let s2 := _append_log s1 ("Send failed: " ++ exc)
          let s3 := set_connected s2 false
          (_set_status s3 "Send failed.", some message)
      | .ok _ =>
          let s2 := _append_log s1
            ("Sent: " ++ (if pyStrip message = "" then "<empty>" else pyStrip message))
          (_set_status s2 "Message sent.", some message)

/-- Model of `GraphQLTabSpec` from `src/voyager/models.py`. -/
structure GraphQLTabSpec where
  id : String
  title : String
  endpoint : String
  query : String
  «variables» : String
  headers : String
  verify_tls : Bool
deriving Repr, DecidableEq

/-- Model of `_spec_to_dict` (`dataclasses.asdict`) on a
`GraphQLTabSpec`: the field dict in declaration order. -/
def _spec_to_dict (s : GraphQLTabSpec) : List (String × Json) :=
  [("id", .str s.id), ("title", .str s.title), ("endpoint", .str s.endpoint),
   ("query", .str s.query), ("variables", .str s.«variables»), ("headers", .str s.headers),
   ("verify_tls", .bool s.verify_tls)]

/-- Dict-semantics insert on a JSON object (Python
`existing[section] = payload`): an existing key keeps its position, a
new key is appended. -/
def objSet (kvs : List (String × Json)) (k : String) (v : Json) : List (String × Json) :=
  if (jlookup kvs k).isSome then kvs.map (fun p => if p.1 = k then (k, v) else p)
  else kvs ++ [(k, v)]

/-- Model of `_select_section` from `src/voyager/storage.py`: non-dict
documents yield the empty section; a truthy section name whose entry is
a dict yields that entry; otherwise the legacy fallback returns the
whole document for the `graphql` section; with no section name the
whole document is returned. -/
def _select_section (data : Json) (sect : Option String) : List (String × Json) :=
  match data with
  | .obj kvs =>
    match sect with
    | some sec =>
        if sec ≠ "" then
          match jlookup kvs sec with
          | some (.obj inner) => inner
          | _ => if sec = "graphql" then kvs else []
        else []
    | none => kvs
  | _ => []

/-- Object written by `save_state` (`src/voyager/storage.py`) for a named
section: the existing document when the store file parses to a dict
(else empty), with the section set to the spec's field dict. `file`
models the store file contents (`none` = missing). -/
def save_obj (loads : String → Except String Json) (spec : GraphQLTabSpec)
    (sec : String) (file : Option String) : List (String × Json) :=
  let existing : List (String × Json) :=
    match file with
    | none => []
    | some txt =>
      match loads txt with
      | .ok (.obj kvs) => kvs
      | _ => []
  objSet existing sec (Json.obj (_spec_to_dict spec))

/-- Model of `save_state` from `src/voyager/storage.py`: the text written
to the store file (`json.dumps(..., indent=2)`). -/
def save_state (loads : String → Except String Json) (spec : GraphQLTabSpec)
    (sect : Option String) (file : Option String) : String :=
  match sect with
  | some sec => jdump 0 (Json.obj (save_obj loads spec sec file))
  | none => jdump 0 (Json.obj (_spec_to_dict spec))

/-- Model of `load_last_state` from `src/voyager/storage.py`, returning
the merged field dict the result spec is constructed from
(`type(default_spec)(**merged)` builds the dataclass with exactly these
field values): a missing or unparseable store file yields the default
spec's fields; otherwise keys of the selected section that exist in the
default's field dict override the defaults, unknown keys are ignored. -/
def load_last_state (loads : String → Except String Json) (default_spec : GraphQLTabSpec)
    (sect : Option String) (file : Option String) : List (String × Json) :=
  match file with
  | none => _spec_to_dict default_spec
  | some txt =>
    match loads txt with
    | .error _ => _spec_to_dict default_spec
    | .ok data =>
      let payload := _select_section data sect
      (_spec_to_dict default_spec).map
        (fun p =>
          match jlookup payload p.1 with
          | some v => (p.1, v)
          | none => p)

/-! Claim theorems. -/

/-- C3: for every endpoint URL whose scheme is not http or https, both
`perform_request` (performGraphQLRequest) and `perform_http_request`
fail with an UnsupportedScheme `ValueError` naming the scheme (or
`missing` when absent), before any network I/O: no transport tier is
invoked (`none`) and no response envelope is produced (`.error`). -/
theorem claim_C3_scheme_validation
    (url : ParsedUrl) (hhttp : url.scheme ≠ "http") (hhttps : url.scheme ≠ "https") :
    (∀ t0 t1 requester httpxAvail hr ur,
        perform_request url t0 t1 requester httpxAvail hr ur =
          (.error ("Unsupported URL scheme: " ++
              (if url.scheme = "" then "missing" else url.scheme)), none)) ∧
    (∀ method t0 t1 requester httpxAvail hr ur,
        perform_http_request url method t0 t1 requester httpxAvail hr ur =
          (.error ("Unsupported URL scheme: " ++
              (if url.scheme = "" then "missing" else url.scheme)), none)) := by
  have hv : _validate_url url =
      .error ("Unsupported URL scheme: " ++
        (if url.scheme = "" then "missing" else url.scheme)) := by
    unfold _validate_url
    rw [if_neg (by simp [hhttp, hhttps])]
  constructor
  · intro t0 t1 requester httpxAvail hr ur
    simp [perform_request, hv]
  · intro method t0 t1 requester httpxAvail hr ur
    simp [perform_http_request, hv]

/-- C3 witness: a concrete ftp endpoint is rejected by both executors
without invoking any transport. -/
theorem claim_C3_witness :
    perform_request ⟨"ftp", "example.com"⟩ 0 1 none true (.ok (200, "ok")) (.ok (200, "ok")) =
      (.error "Unsupported URL scheme: ftp", none) ∧
    perform_http_request ⟨"ftp", "example.com"⟩ "get" 0 1 none true
        (fun _ => .ok (200, "ok")) (fun _ => .ok (200, "ok")) =
      (.error "Unsupported URL scheme: ftp", none) := by
  have h := claim_C3_scheme_validation ⟨"ftp", "example.com"⟩ (by decide) (by decide)
  exact ⟨h.1 0 1 none true (.ok (200, "ok")) (.ok (200, "ok")),
         h.2 "get" 0 1 none true (fun _ => .ok (200, "ok")) (fun _ => .ok (200, "ok"))⟩

/-- C6: with a valid scheme and a monotone clock, a requester stub
returning `(200, "ok")` yields the envelope `status=200`, `text="ok"`,
`duration_ms = (t1-t0)*1000 ≥ 0`, and is dispatched to in priority over
the other tiers regardless of their availability or outcome; the
remaining tiers produce an envelope of the same shape. -/
theorem claim_C6_request_executor
    (url : ParsedUrl) (hscheme : url.scheme = "http" ∨ url.scheme = "https")
    (t0 t1 : Rat) (hmono : t0 ≤ t1) :
    (∀ httpxAvail hr ur,
        perform_request url t0 t1 (some (.ok (200, "ok"))) httpxAvail hr ur =
          (.ok ⟨200, "ok", (t1 - t0) * 1000⟩, some .requester)) ∧
    (0 : Rat) ≤ (t1 - t0) * 1000 ∧
    (∀ st tx ur, perform_request url t0 t1 none true (.ok (st, tx)) ur =
        (.ok ⟨st, tx, (t1 - t0) * 1000⟩, some .httpx)) ∧
    (∀ st tx hr, perform_request url t0 t1 none false hr (.ok (st, tx)) =
        (.ok ⟨st, tx, (t1 - t0) * 1000⟩, some .urllib)) := by
  have hv : _validate_url url = .ok () := by
    unfold _validate_url
    rw [if_pos hscheme]
  refine ⟨?_, ?_, ?_, ?_⟩
  · intro httpxAvail hr ur
    simp [perform_request, hv]
  · have h0 : (0 : Rat) ≤ t1 - t0 := by linarith
    nlinarith
  · intro st tx ur
    simp [perform_request, hv]
  · intro st tx hr
    simp [perform_request, hv]

/-- C6 witness: concrete https endpoint, clock 0 → 1, stub transports. -/
theorem claim_C6_witness :
    perform_request ⟨"https", "example.com"⟩ 0 1 (some (.ok (200, "ok"))) true
        (.error "boom") (.error "boom") =
      (.ok ⟨200, "ok", ((1 : Rat) - 0) * 1000⟩, some .requester) ∧
    (0 : Rat) ≤ ((1 : Rat) - 0) * 1000 := by
  have h := claim_C6_request_executor ⟨"https", "example.com"⟩ (by norm_num) 0 1 (by norm_num)
  exact ⟨h.1 true (.error "boom") (.error "boom"), h.2.1⟩

/-- C9: `parse_headers` on an empty (or whitespace-only) input yields the
empty mapping, and on any input whose trimmed text parses as a JSON
object yields the members with every value passed through Python `str`
(keys of a JSON object are already strings). -/
theorem claim_C9_parse_headers (loads : String → Except String Json) (raw : String) :
    (pyStrip raw = "" → parse_headers loads raw = .ok []) ∧
    (∀ members, pyStrip raw ≠ "" → loads (pyStrip raw) = .ok (.obj members) →
        parse_headers loads raw = .ok (members.map (fun p => (p.1, pyStr p.2)))) := by
  constructor
  · intro h
    unfold parse_headers
    simp [h]
  · intro members hne h
    unfold parse_headers
    simp [hne, h]

/-- C9 witness: the JSON object with the single member `"A": 1` parses to
the mapping sending `A` to the string `"1"`, and a whitespace-only
input yields the empty mapping. -/
theorem claim_C9_witness :
    parse_headers (fun s => if s = "\x7b\"A\":1\x7d" then .ok (.obj [("A", .num 1)])
        else .error "Expecting value") " \x7b\"A\":1\x7d " = .ok [("A", "1")] ∧
    parse_headers (fun s => if s = "\x7b\"A\":1\x7d" then .ok (.obj [("A", .num 1)])
        else .error "Expecting value") "  " = .ok [] := by
  constructor
  · exact (claim_C9_parse_headers _ " \x7b\"A\":1\x7d ").2 [("A", .num 1)]
      (by decide) rfl
  · exact (claim_C9_parse_headers _ "  ").1 (by decide)

/-- C7: `disconnect` always leaves the session disconnected with the
receive-loop task and the connection handle cleared; `connection.close()`
is invoked exactly when a handle is present after the cancel-and-await
phase (a live receive loop's `finally` already cleared the handle); and
a second `disconnect` right after a first one leaves the state unchanged
and closes nothing. -/
theorem claim_C7_disconnect_idempotent (s : WsSession) (c1 c2 : Bool) :
    (disconnect s c1).1.connected = false ∧
    (disconnect s c1).1.recv_task = none ∧
    (disconnect s c1).1.connection = none ∧
    ((disconnect s c1).2 = true ↔ (s.recv_task = none ∧ s.connection.isSome = true)) ∧
    disconnect (disconnect s c1).1 c2 = ((disconnect s c1).1, false) := by
  obtain ⟨b, cd, conn, task, st, lg⟩ := s
  cases task <;> cases conn <;> cases cd <;> cases c1 <;>
    simp [disconnect, set_connected, _append_log]

/-- C2: on a quiescent disconnected session with a non-empty endpoint
whose URL has a scheme outside ws/wss, `connect` fails validation before
any I/O: the transport connect callable is never invoked (second
component `false`), the state is unchanged except for the status line,
which reads `Unsupported URL scheme: <scheme or missing>` (so the
session stays disconnected with no connection handle and no receive
loop); a ws/wss URL with an empty host likewise only sets the status to
`Missing host in URL.`. -/
theorem claim_C2_ws_connect_validation
    (loads : String → Except String Json) (s : WsSession) (env : ConnectEnv)
    (hbusy : s.busy = false) (hne : pyStrip env.endpoint ≠ "") :
    (env.url.scheme ≠ "ws" → env.url.scheme ≠ "wss" →
        connect loads s env =
          ({ s with status := "Unsupported URL scheme: " ++
              (if env.url.scheme = "" then "missing" else env.url.scheme) }, false)) ∧
    ((env.url.scheme = "ws" ∨ env.url.scheme = "wss") → env.url.netloc = "" →
        connect loads s env = ({ s with status := "Missing host in URL." }, false)) := by
  constructor
  · intro hws hwss
    have hv : _validate_ws_url env.url =
        .error ("Unsupported URL scheme: " ++
          (if env.url.scheme = "" then "missing" else env.url.scheme)) := by
      unfold _validate_ws_url
      rw [if_neg (by simp [hws, hwss])]
    simp [connect, hbusy, hne, hv, _set_status]
  · intro hsch hhost
    have hv : _validate_ws_url env.url = .error "Missing host in URL." := by
      unfold _validate_ws_url
      rw [if_pos hsch, if_pos hhost]
    simp [connect, hbusy, hne, hv, _set_status]

/-- C2 witness: a concrete invalid-scheme connect and a concrete
missing-host connect, from the idle session. -/
theorem claim_C2_witness :
    connect (fun _ => .error "x") ⟨false, false, none, none, "", []⟩
        ⟨"invalid://example", ⟨"invalid", "example"⟩, "", some (.ok 0), true⟩ =
      (⟨false, false, none, none, "Unsupported URL scheme: invalid", []⟩, false) ∧
    connect (fun _ => .error "x") ⟨false, false, none, none, "", []⟩
        ⟨"ws://", ⟨"ws", ""⟩, "", some (.ok 0), true⟩ =
      (⟨false, false, none, none, "Missing host in URL.", []⟩, false) := by
  constructor
  · exact (claim_C2_ws_connect_validation (fun _ => .error "x")
      ⟨false, false, none, none, "", []⟩
      ⟨"invalid://example", ⟨"invalid", "example"⟩, "", some (.ok 0), true⟩
      rfl (by decide)).1 (by decide) (by decide)
  · exact (claim_C2_ws_connect_validation (fun _ => .error "x")
      ⟨false, false, none, none, "", []⟩
      ⟨"ws://", ⟨"ws", ""⟩, "", some (.ok 0), true⟩
      rfl (by decide)).2 (Or.inl rfl) rfl

theorem append_ne_empty (a b : String) (ha : a ≠ "") : a ++ b ≠ "" := by
  intro h
  apply ha
  obtain ⟨da⟩ := a
  obtain ⟨db⟩ := b
  have hd : da ++ db = ([] : List Char) := congrArg String.data h
  rcases List.append_eq_nil.mp hd with ⟨h1, _⟩
  rw [h1]

theorem _validate_ws_url_error_ne {u : ParsedUrl} {m : String}
    (h : _validate_ws_url u = .error m) : m ≠ "" := by
  unfold _validate_ws_url at h
  split at h
  · split at h
    · cases h
      decide
    · cases h
  · cases h
    exact append_ne_empty _ _ (by decide)

theorem parse_header_lines_go_error {lines : List String} {acc : List (String × String)}
    {m : String} (h : parse_header_lines_go lines acc = .error m) : m ≠ "" := by
  induction lines generalizing acc with
  | nil => simp [parse_header_lines_go] at h
  | cons line rest ih =>
    rw [parse_header_lines_go] at h
    split at h
    · exact ih h
    · split at h
      · exact ih h
      · cases h
        exact append_ne_empty _ _ (by decide)

theorem parse_headers_error_ne {loads : String → Except String Json} {raw m : String}
    (h : parse_headers loads raw = .error m) : m ≠ "" := by
  unfold parse_headers at h
  split at h
  · cases h
  · split at h
    · cases h
    · cases h
      decide
    · unfold parse_header_lines at h
      exact parse_header_lines_go_error h

theorem disconnect_clears (s : WsSession) (c : Bool) :
    (disconnect s c).1.connected = false ∧ (disconnect s c).1.recv_task = none ∧
    (disconnect s c).1.connection = none := by
  obtain ⟨b, cd, conn, task, st, lg⟩ := s
  cases task <;> cases conn <;> cases cd <;> cases c <;>
    simp [disconnect, set_connected, _append_log]

theorem disconnect_log_ge (s : WsSession) (c : Bool) :
    s.log.length ≤ (disconnect s c).1.log.length := by
  obtain ⟨b, cd, conn, task, st, lg⟩ := s
  cases task <;> cases conn <;> cases cd <;> cases c <;>
    simp [disconnect, set_connected, _append_log]

theorem set_busy_log (s : WsSession) (b : Bool) : (set_busy s b).log = s.log := by
  unfold set_busy
  split <;> rfl

theorem set_busy_connected (s : WsSession) (b : Bool) :
    (set_busy s b).connected = s.connected := by
  unfold set_busy
  split <;> rfl

theorem set_busy_connection (s : WsSession) (b : Bool) :
    (set_busy s b).connection = s.connection := by
  unfold set_busy
  split <;> rfl

/-- When a quiescent `connect` attempt ends with the session still not
open, the user was notified: the status line is non-empty or the log
grew. -/
theorem connect_failed_notified (loads : String → Except String Json) (s : WsSession)
    (env : ConnectEnv) (hbusy : s.busy = false)
    (hno : ¬ (connect loads s env).1.isOpen) :
    (connect loads s env).1.status ≠ "" ∨ (connect loads s env).1.log ≠ s.log := by
  by_cases hemp : pyStrip env.endpoint = ""
  · left
    simp [connect, hbusy, hemp, _set_status]
  · rcases hv : _validate_ws_url env.url with m | u
    · -- validation error: status is the validation message
      left
      simp only [connect, hbusy, Bool.false_eq_true, if_false, hemp, if_neg, hv, _set_status]
      exact _validate_ws_url_error_ne hv
    · rcases hp : parse_headers loads env.raw_headers with m | hdrs
      · left
        simp only [connect, hbusy, Bool.false_eq_true, if_false, hemp, if_neg, hv, hp,
          _set_status]
        exact parse_headers_error_ne hp
      · rcases htr : env.transport with _ | outcome
        · left
          simp [connect, hbusy, hemp, hv, hp, htr, _set_status]
        · rcases outcome with exc | handle
          · -- transport raised: the log grew by "Connect failed: <exc>"
            right
            have hle := disconnect_log_ge (set_busy s true) env.closeOk
            rw [set_busy_log] at hle
            intro heq
            have hlen := congrArg List.length heq
            simp only [connect, hbusy, Bool.false_eq_true, if_false, hemp, if_neg, hv, hp,
              htr, _set_status, _append_log, set_busy_log] at hlen
            simp at hlen
            omega
          · -- transport succeeded: the session is open, contradiction
            exfalso
            apply hno
            have hdc := disconnect_clears (set_busy s true) env.closeOk
            constructor
            · simp [connect, hbusy, hemp, hv, hp, htr, _set_status, _append_log,
                set_connected, set_busy_log, set_busy_connected, set_busy_connection,
                hdc.1, WsSession.isOpen]
            · simp [connect, hbusy, hemp, hv, hp, htr, _set_status, _append_log,
                set_connected, set_busy_log, set_busy_connected, set_busy_connection,
                hdc.1, WsSession.isOpen]

/-- C8: on a non-busy session, `send` on a session that is not Open first
attempts the implicit `connect`; if the session is still not Open
afterward the send is a no-op — the message is never handed to the
transport (`none`) and the caller was notified (non-empty status or a
new log line); when the session is Open the message is forwarded
verbatim; and a transport failure during the forward flips the session
to disconnected with status `Send failed.` (the model is a total
function: nothing is raised past the caller). -/
theorem claim_C8_send (loads : String → Except String Json) (s : WsSession)
    (env : ConnectEnv) (message : String) (sendResult : Except String Unit)
    (hbusy : s.busy = false) :
    (¬ s.isOpen → ¬ (connect loads s env).1.isOpen →
        send loads s env message sendResult = ((connect loads s env).1, none) ∧
        ((connect loads s env).1.status ≠ "" ∨ (connect loads s env).1.log ≠ s.log)) ∧
    (s.isOpen → (send loads s env message sendResult).2 = some message) ∧
    (∀ exc, s.isOpen → sendResult = .error exc →
        (send loads s env message sendResult).1.connected = false ∧
        (send loads s env message sendResult).1.status = "Send failed.") := by
  refine ⟨?_, ?_, ?_⟩
  · intro hno hno2
    have hb : (s.connection.isNone || !s.connected) = true := by
      rcases hc : s.connection with _ | c <;> rcases hcd : s.connected
      · simp
      · simp
      · simp
      · exact absurd ⟨hcd, by rw [hc]; rfl⟩ hno
    have hb2 : ((connect loads s env).1.connection.isNone ||
        !(connect loads s env).1.connected) = true := by
      rcases hc : (connect loads s env).1.connection with _ | c <;>
        rcases hcd : (connect loads s env).1.connected
      · simp
      · simp
      · simp
      · exact absurd ⟨hcd, by rw [hc]; rfl⟩ hno2
    refine ⟨?_, connect_failed_notified loads s env hbusy hno2⟩
    simp only [send, hbusy, Bool.false_eq_true, if_false, hb, if_true, hb2]
  · intro hopen
    obtain ⟨hcd, hc⟩ := hopen
    have hb : (s.connection.isNone || !s.connected) = false := by
      rcases hco : s.connection with _ | c
      · rw [hco] at hc
        cases hc
      · simp [hcd]
    simp only [send, hbusy, Bool.false_eq_true, if_false, hb]
    rcases sendResult with exc | u <;> simp
  · intro exc hopen hres
    obtain ⟨hcd, hc⟩ := hopen
    have hb : (s.connection.isNone || !s.connected) = false := by
      rcases hco : s.connection with _ | c
      · rw [hco] at hc
        cases hc
      · simp [hcd]
    subst hres
    simp only [send, hbusy, Bool.false_eq_true, if_false, hb]
    simp [set_connected, _append_log, _set_status, hcd]

/-- C8 witness: sending on an idle session whose implicit connect fails
validation forwards nothing and leaves a notification; sending on an
open session forwards the message; a transport failure on an open
session flips it to disconnected with status `Send failed.`. -/
theorem claim_C8_witness :
    send (fun _ => .error "x") ⟨false, false, none, none, "", []⟩
        ⟨"invalid://example", ⟨"invalid", "example"⟩, "", some (.ok 0), true⟩
        "hello" (.ok ()) =
      (⟨false, false, none, none, "Unsupported URL scheme: invalid", []⟩, none) ∧
    (send (fun _ => .error "x") ⟨false, true, some 1, some 1, "Connected.", []⟩
        ⟨"ws://e", ⟨"ws", "e"⟩, "", some (.ok 0), true⟩ "hello" (.ok ())).2 =
      some "hello" ∧
    (send (fun _ => .error "x") ⟨false, true, some 1, some 1, "Connected.", []⟩
        ⟨"ws://e", ⟨"ws", "e"⟩, "", some (.ok 0), true⟩ "hello"
        (.error "boom")).1.connected = false ∧
    (send (fun _ => .error "x") ⟨false, true, some 1, some 1, "Connected.", []⟩
        ⟨"ws://e", ⟨"ws", "e"⟩, "", some (.ok 0), true⟩ "hello"
        (.error "boom")).1.status = "Send failed." := by
  have h1 := claim_C8_send (fun _ => .error "x") ⟨false, false, none, none, "", []⟩
      ⟨"invalid://example", ⟨"invalid", "example"⟩, "", some (.ok 0), true⟩
      "hello" (.ok ()) rfl
  have h2 := claim_C8_send (fun _ => .error "x") ⟨false, true, some 1, some 1, "Connected.", []⟩
      ⟨"ws://e", ⟨"ws", "e"⟩, "", some (.ok 0), true⟩ "hello" (.ok ()) rfl
  have h3 := claim_C8_send (fun _ => .error "x") ⟨false, true, some 1, some 1, "Connected.", []⟩
      ⟨"ws://e", ⟨"ws", "e"⟩, "", some (.ok 0), true⟩ "hello" (.error "boom") rfl
  refine ⟨?_, h2.2.1 ⟨rfl, rfl⟩, (h3.2.2 "boom" ⟨rfl, rfl⟩ rfl).1, (h3.2.2 "boom" ⟨rfl, rfl⟩ rfl).2⟩
  have hno : ¬ (⟨false, false, none, none, "", []⟩ : WsSession).isOpen := by
    intro h
    cases h.2
  have hno2 : ¬ (connect (fun _ => .error "x") ⟨false, false, none, none, "", []⟩
      ⟨"invalid://example", ⟨"invalid", "example"⟩, "", some (.ok 0), true⟩).1.isOpen := by
    intro h
    have := h.2
    revert this
    decide
  have := (h1.1 hno hno2).1
  rw [this]
  have hc : connect (fun _ => .error "x") ⟨false, false, none, none, "", []⟩
      ⟨"invalid://example", ⟨"invalid", "example"⟩, "", some (.ok 0), true⟩ =
      (⟨false, false, none, none, "Unsupported URL scheme: invalid", []⟩, false) := by
    decide
  rw [hc]

/-- C4: `_type_repr` resolves type-reference nodes recursively: a falsy
(null/absent/empty) node yields `"Unknown"`; a node wrapping a truthy
`ofType` whose kind is NON_NULL appends `!` to the inner representation,
and LIST brackets it; a node with no truthy `ofType` yields its own name
if present (truthy), else its kind, else `"Unknown"`; and in particular
NON_NULL wrapping LIST wrapping the scalar `String` yields
`"[String]!"`. -/
theorem claim_C4_type_repr :
    (∀ node : Json, node.truthy = false → _type_repr node = .ok (.str "Unknown")) ∧
    (∀ kvs oft inner, jlookup kvs "ofType" = some oft → oft.truthy = true →
        (jlookup kvs "kind").getD .null = .str "NON_NULL" → _type_repr oft = .ok inner →
        _type_repr (.obj kvs) = .ok (.str (pyStr inner ++ "!"))) ∧
    (∀ kvs oft inner, jlookup kvs "ofType" = some oft → oft.truthy = true →
        (jlookup kvs "kind").getD .null = .str "LIST" → _type_repr oft = .ok inner →
        _type_repr (.obj kvs) = .ok (.str ("[" ++ pyStr inner ++ "]"))) ∧
    (∀ kvs : List (String × Json), (Json.obj kvs).truthy = true →
        ((jlookup kvs "ofType").getD .null).truthy = false →
        _type_repr (.obj kvs) =
          .ok (if ((jlookup kvs "name").getD .null).truthy then
                 (jlookup kvs "name").getD .null
               else if ((jlookup kvs "kind").getD .null).truthy then
                 (jlookup kvs "kind").getD .null
               else .str "Unknown")) ∧
    _type_repr (.obj [("kind", .str "NON_NULL"),
        ("ofType", .obj [("kind", .str "LIST"),
          ("ofType", .obj [("kind", .str "SCALAR"), ("name", .str "String")])])]) =
      .ok (.str "[String]!") := by
  have ha : ∀ node : Json, node.truthy = false → _type_repr node = .ok (.str "Unknown") := by
    intro node h
    unfold _type_repr
    rw [if_pos h]
  have hb : ∀ kvs oft inner, jlookup kvs "ofType" = some oft → oft.truthy = true →
      (jlookup kvs "kind").getD .null = .str "NON_NULL" → _type_repr oft = .ok inner →
      _type_repr (.obj kvs) = .ok (.str (pyStr inner ++ "!")) := by
    intro kvs oft inner hof htr hkind hin
    have hne : kvs ≠ [] := jlookup_nonnil hof
    have htruthy : (Json.obj kvs).truthy = true := by
      simp [Json.truthy, hne]
    unfold _type_repr
    rw [if_neg (by simp [htruthy])]
    split
    next oft2 heq2 =>
      injection heq2 with h2
      subst h2
      split
      next oft3 heq3 =>
        rw [hof] at heq3
        injection heq3 with h3
        subst h3
        rw [if_pos htr]
        simp only [hin, hkind]
      next heq3 =>
        rw [hof] at heq3
        exact Option.noConfusion heq3
    next heq2 =>
      exact absurd rfl (heq2 kvs)
  have hc : ∀ kvs oft inner, jlookup kvs "ofType" = some oft → oft.truthy = true →
      (jlookup kvs "kind").getD .null = .str "LIST" → _type_repr oft = .ok inner →
      _type_repr (.obj kvs) = .ok (.str ("[" ++ pyStr inner ++ "]")) := by
    intro kvs oft inner hof htr hkind hin
    have hne : kvs ≠ [] := jlookup_nonnil hof
    have htruthy : (Json.obj kvs).truthy = true := by
      simp [Json.truthy, hne]
    unfold _type_repr
    rw [if_neg (by simp [htruthy])]
    split
    next oft2 heq2 =>
      injection heq2 with h2
      subst h2
      split
      next oft3 heq3 =>
        rw [hof] at heq3
        injection heq3 with h3
        subst h3
        rw [if_pos htr]
        simp only [hin, hkind]
      next heq3 =>
        rw [hof] at heq3
        exact Option.noConfusion heq3
    next heq2 =>
      exact absurd rfl (heq2 kvs)
  have hd : ∀ kvs : List (String × Json), (Json.obj kvs).truthy = true →
      ((jlookup kvs "ofType").getD .null).truthy = false →
      _type_repr (.obj kvs) =
        .ok (if ((jlookup kvs "name").getD .null).truthy then
               (jlookup kvs "name").getD .null
             else if ((jlookup kvs "kind").getD .null).truthy then
               (jlookup kvs "kind").getD .null
             else .str "Unknown") := by
    intro kvs htruthy hof
    unfold _type_repr
    rw [if_neg (by simp [htruthy])]
    split
    next oft2 heq2 =>
      injection heq2 with h2
      subst h2
      split
      next oft3 heq3 =>
        rw [heq3] at hof
        simp only [Option.getD_some] at hof
        rw [if_neg (by simp [hof])]
      next heq3 =>
        rfl
    next heq2 =>
      exact absurd rfl (heq2 kvs)
  refine ⟨ha, hb, hc, hd, ?_⟩
  have h1 : _type_repr (.obj [("kind", .str "SCALAR"), ("name", .str "String")]) =
      .ok (.str "String") :=
    (hd [("kind", .str "SCALAR"), ("name", .str "String")] rfl rfl).trans rfl
  have h2 : _type_repr (.obj [("kind", .str "LIST"),
      ("ofType", .obj [("kind", .str "SCALAR"), ("name", .str "String")])]) =
      .ok (.str "[String]") :=
    (hc [("kind", .str "LIST"),
        ("ofType", .obj [("kind", .str "SCALAR"), ("name", .str "String")])]
      (.obj [("kind", .str "SCALAR"), ("name", .str "String")]) (.str "String")
      rfl rfl rfl h1).trans rfl
  exact (hb [("kind", .str "NON_NULL"),
        ("ofType", .obj [("kind", .str "LIST"),
          ("ofType", .obj [("kind", .str "SCALAR"), ("name", .str "String")])])]
      (.obj [("kind", .str "LIST"),
        ("ofType", .obj [("kind", .str "SCALAR"), ("name", .str "String")])])
      (.str "[String]") rfl rfl rfl h2).trans rfl

/-- C4 witness: the theorem's clauses instantiated at the null node and
at a concrete NON_NULL-of-LIST-of-String node. -/
theorem claim_C4_witness :
    _type_repr .null = .ok (.str "Unknown") ∧
    _type_repr (.obj [("kind", .str "NON_NULL"),
        ("ofType", .obj [("kind", .str "LIST"),
          ("ofType", .obj [("kind", .str "SCALAR"), ("name", .str "String")])])]) =
      .ok (.str "[String]!") :=
  ⟨claim_C4_type_repr.1 .null rfl, claim_C4_type_repr.2.2.2.2⟩

/-- C10: every result actually returned by `build_introspection_result`
has `success = true` exactly when its types list is non-empty; every
failure result carries an empty types list; and every success result has
status `Schema loaded: <N> types.` with `N` the length of the types
list. -/
theorem claim_C10_result_invariant (loads : String → Except String Json)
    (response : GraphQLResponse) (r : IntrospectionResult)
    (h : build_introspection_result loads response = .ok r) :
    (r.success = true ↔ r.types ≠ []) ∧
    (r.success = false → r.types = []) ∧
    (r.success = true →
        r.status = "Schema loaded: " ++ toString r.types.length ++ " types.") := by
  unfold build_introspection_result at h
  repeat' split at h
  all_goals cases h
  all_goals simp_all [List.isEmpty_iff]

/-- C10 witness: the parse-failure result (a failure with empty types)
instantiates the invariant. -/
theorem claim_C10_witness :
    ((⟨false, "Could not parse JSON: boom", "x", []⟩ : IntrospectionResult).success = true ↔
      (⟨false, "Could not parse JSON: boom", "x", []⟩ : IntrospectionResult).types ≠ []) ∧
    ((⟨false, "Could not parse JSON: boom", "x", []⟩ : IntrospectionResult).success = false →
      (⟨false, "Could not parse JSON: boom", "x", []⟩ : IntrospectionResult).types = []) :=
  have h := claim_C10_result_invariant (fun _ => .error "boom") ⟨200, "x", 0⟩
    ⟨false, "Could not parse JSON: boom", "x", []⟩ rfl
  ⟨h.1, h.2.1⟩

/-- C1 (amended): `build_introspection_result` settles its outcome in a
fixed priority order — (1) an unparseable body yields `success=false`,
status `Could not parse JSON: <msg>`, details = raw body; (2) otherwise
a non-200 HTTP status yields `success=false`, status `HTTP <code>`,
details = raw body (in particular status 500 → `HTTP 500`); (3)
otherwise a non-empty top-level `errors` array yields `success=false`
with status `GraphQL errors`; (4) otherwise — provided the payload is an
object whose `data` member, when present, is an object, whose
`__schema` member, when present, is an object (the unrestricted claim is
false: other shapes make the code raise `AttributeError`, see the
counterexample) — an absent or falsy `data.__schema.types` yields
`success=false` with status `No types returned from schema.`. -/
theorem claim_C1_build_result_priority (loads : String → Except String Json)
    (response : GraphQLResponse) :
    (∀ exc, loads response.text = .error exc →
        build_introspection_result loads response =
          .ok ⟨false, "Could not parse JSON: " ++ exc, response.text, []⟩) ∧
    (∀ payload, loads response.text = .ok payload → response.status ≠ 200 →
        build_introspection_result loads response =
          .ok ⟨false, "HTTP " ++ toString response.status, response.text, []⟩) ∧
    (∀ members es, loads response.text = .ok (.obj members) → response.status = 200 →
        jlookup members "errors" = some (.arr es) → es ≠ [] →
        build_introspection_result loads response =
          .ok ⟨false, "GraphQL errors", jdump 0 (.arr es), []⟩) ∧
    (∀ members dkvs skvs, loads response.text = .ok (.obj members) →
        response.status = 200 →
        ((jlookup members "errors").getD .null).truthy = false →
        (jlookup members "data").getD (.obj []) = .obj dkvs →
        (jlookup dkvs "__schema").getD (.obj []) = .obj skvs →
        ((jlookup skvs "types").getD .null).truthy = false →
        build_introspection_result loads response =
          .ok ⟨false, "No types returned from schema.", response.text, []⟩) := by
  refine ⟨?_, ?_, ?_, ?_⟩
  · intro exc hl
    unfold build_introspection_result
    rw [hl]
  · intro payload hl hst
    unfold build_introspection_result
    rw [hl]
    simp only [if_pos hst]
  · intro members es hl hst herr hne
    unfold build_introspection_result
    rw [hl]
    simp [hst, pyGet, herr, Json.truthy, hne]
  · intro members dkvs skvs hl hst herr hdata hschema htypes
    unfold build_introspection_result
    rw [hl]
    simp [hst, pyGet, pyGetD, herr, hdata, hschema, htypes]

/-- Model of `json.loads` restricted to the inputs of the C1
counterexample: the text `{"data": 5}` parses to the object with the
single member `data = 5` (as Python `json.loads` does), everything else
raises. -/
def loadsData5 : String → Except String Json :=
  fun s =>
    if s = "\x7b\"data\": 5\x7d" then .ok (.obj [("data", .num 5)])
    else .error "Expecting value: line 1 column 1 (char 0)"

/-- C1 counterexample: the claim as stated is false at the response with
status 200 and body `{"data": 5}` — the body parses, the status is 200,
there is no errors array and `data.__schema.types` is absent, so the
claim demands a `No types returned from schema.` failure result, but
the code raises `AttributeError` at `data.get("data", {}).get(...)`
(the integer 5 has no `.get`) and returns no result at all. -/
theorem claim_C1_counterexample :
    build_introspection_result loadsData5 ⟨200, "\x7b\"data\": 5\x7d", 0⟩ =
      .error "AttributeError" ∧
    build_introspection_result loadsData5 ⟨200, "\x7b\"data\": 5\x7d", 0⟩ ≠
      .ok ⟨false, "No types returned from schema.", "\x7b\"data\": 5\x7d", []⟩ := by
  have h1 : build_introspection_result loadsData5 ⟨200, "\x7b\"data\": 5\x7d", 0⟩ =
      .error "AttributeError" := rfl
  exact ⟨h1, by rw [h1]; exact fun hcontra => Except.noConfusion hcontra⟩

/-- C1 witness: a status-500 response with a parseable body yields the
`HTTP 500` failure; an unparseable body yields the parse-error failure
first. -/
theorem claim_C1_witness :
    build_introspection_result (fun _ => .ok (.obj [])) ⟨500, "\x7b\x7d", 0⟩ =
      .ok ⟨false, "HTTP " ++ toString (500 : Int), "\x7b\x7d", []⟩ ∧
    build_introspection_result (fun _ => .error "Expecting value") ⟨500, "not json", 0⟩ =
      .ok ⟨false, "Could not parse JSON: " ++ "Expecting value", "not json", []⟩ :=
  ⟨(claim_C1_build_result_priority (fun _ => .ok (.obj []))
      ⟨500, "\x7b\x7d", 0⟩).2.1 (.obj []) rfl (by decide),
   (claim_C1_build_result_priority (fun _ => .error "Expecting value")
      ⟨500, "not json", 0⟩).1 "Expecting value" rfl⟩

theorem jlookup_map_replace {kvs : List (String × Json)} {k : String} (v : Json)
    (h : (jlookup kvs k).isSome = true) :
    jlookup (kvs.map (fun p => if p.1 = k then (k, v) else p)) k = some v := by
  induction kvs with
  | nil => simp [jlookup] at h
  | cons p rest ih =>
    obtain ⟨a, b⟩ := p
    by_cases hk : a = k
    · subst hk
      rw [List.map_cons]
      rw [if_pos (show ((a, b).1 = a) from rfl)]
      rw [jlookup]
      rw [if_pos (show ((a, v).1 = a) from rfl)]
    · rw [jlookup] at h
      rw [if_neg hk] at h
      rw [List.map_cons]
      rw [if_neg hk]
      rw [jlookup]
      rw [if_neg hk]
      exact ih h

theorem jlookup_append_single {kvs : List (String × Json)} {k : String} (v : Json)
    (h : jlookup kvs k = none) :
    jlookup (kvs ++ [(k, v)]) k = some v := by
  induction kvs with
  | nil => simp [jlookup]
  | cons p rest ih =>
    obtain ⟨a, b⟩ := p
    rw [jlookup] at h
    by_cases hk : a = k
    · rw [if_pos hk] at h
      cases h
    · rw [if_neg hk] at h
      rw [List.cons_append, jlookup, if_neg hk]
      exact ih h

theorem _select_section_obj (kvs : List (String × Json)) :
    _select_section (.obj kvs) (some "graphql") =
      (match jlookup kvs "graphql" with
       | some (.obj inner) => inner
       | _ => if "graphql" = "graphql" then kvs else []) := rfl

theorem jlookup_objSet_self (kvs : List (String × Json)) (k : String) (v : Json) :
    jlookup (objSet kvs k v) k = some v := by
  unfold objSet
  rcases hl : jlookup kvs k with _ | w
  · rw [if_neg (by simp [hl])]
    exact jlookup_append_single v hl
  · rw [if_pos (by simp [hl])]
    exact jlookup_map_replace v (by simp [hl])

/-- C5: state-store round trip for the `graphql` section. Provided
`json.loads` inverts the `json.dumps` text `save_state` wrote (the
hypothesis `hrt` — a property of the external JSON library), loading
over any default spec returns exactly the saved spec's field dict (its
keys cover every default field, so all overlapping fields — here all of
them — take the saved values and unknown keys are ignored by
construction); a missing store file returns the default spec's fields
unchanged; a store file whose contents do not parse as JSON also
returns the default spec's fields unchanged. The returned dict is the
argument list of `type(default_spec)(**merged)`, so equal dicts mean
equal dataclasses. -/
theorem claim_C5_state_roundtrip (loads : String → Except String Json)
    (spec default_spec : GraphQLTabSpec) (file : Option String)
    (hrt : loads (save_state loads spec (some "graphql") file) =
        .ok (.obj (save_obj loads spec "graphql" file))) :
    load_last_state loads default_spec (some "graphql")
        (some (save_state loads spec (some "graphql") file)) = _spec_to_dict spec ∧
    load_last_state loads default_spec (some "graphql") none = _spec_to_dict default_spec ∧
    (∀ txt exc, loads txt = .error exc →
        load_last_state loads default_spec (some "graphql") (some txt) =
          _spec_to_dict default_spec) := by
  refine ⟨?_, rfl, ?_⟩
  · have hsel : _select_section (.obj (save_obj loads spec "graphql" file))
        (some "graphql") = _spec_to_dict spec := by
      rw [_select_section_obj]
      unfold save_obj
      simp only [jlookup_objSet_self]
    unfold load_last_state
    simp only [hrt, hsel]
    simp [_spec_to_dict, jlookup]
  · intro txt exc hl
    unfold load_last_state
    simp only [hl]

/-- Spec value for the C5 witness. -/
def specW : GraphQLTabSpec :=
  ⟨"gq", "GraphQL", "https://api.example.com/graphql", "query Q", "", "", true⟩

/-- Default spec value for the C5 witness. -/
def defaultW : GraphQLTabSpec :=
  ⟨"gq", "GraphQL", "", "", "", "", false⟩

/-- Model of `json.loads` restricted to the inputs of the C5 witness:
it inverts the store text that `save_state` writes for `specW` (as the
real JSON library does) and rejects everything else. -/
def loadsW : String → Except String Json :=
  fun s =>
    if s = jdump 0 (.obj (objSet [] "graphql" (.obj (_spec_to_dict specW)))) then
      .ok (.obj (objSet [] "graphql" (.obj (_spec_to_dict specW))))
    else .error "Expecting value"

/-- C5 witness: saving `specW` into a missing store and loading over
`defaultW` returns `specW`'s fields; loading from a missing store and
from a corrupt store returns `defaultW`'s fields. -/
theorem claim_C5_witness :
    load_last_state loadsW defaultW (some "graphql")
        (some (save_state loadsW specW (some "graphql") none)) = _spec_to_dict specW ∧
    load_last_state loadsW defaultW (some "graphql") none = _spec_to_dict defaultW ∧
    load_last_state loadsW defaultW (some "graphql") (some "not json") =
      _spec_to_dict defaultW := by
  have hrt : loadsW (save_state loadsW specW (some "graphql") none) =
      .ok (.obj (save_obj loadsW specW "graphql" none)) := by
    show loadsW (jdump 0 (.obj (save_obj loadsW specW "graphql" none))) = _
    show (if jdump 0 (.obj (objSet [] "graphql" (.obj (_spec_to_dict specW)))) =
        jdump 0 (.obj (objSet [] "graphql" (.obj (_spec_to_dict specW)))) then
        Except.ok (Json.obj (objSet [] "graphql" (.obj (_spec_to_dict specW))))
      else Except.error "Expecting value") = _
    rw [if_pos rfl]
    rfl
  have h := claim_C5_state_roundtrip loadsW specW defaultW none hrt
  exact ⟨h.1, h.2.1, h.2.2 "not json" "Expecting value" rfl⟩

end Voyager
